import Mathlib

/-!
Verification of the electronics-inventory service (`inventory_routes.py`).

The handlers are modelled as pure functions over an explicit store
(`List Item`, mirroring the MongoDB collection `electronics_inventory`).
JSON request payloads are association lists of `JVal` values; timestamps
and freshly generated ObjectIds are passed in as explicit arguments,
since the Python code obtains them from the environment.
-/

set_option maxHeartbeats 1000000

namespace Inventory

/-- A JSON scalar value as it arrives in a Flask `request.json` payload.
(Floating-point values are outside the model's scope; the routes under
verification only ever convert payload values with Python `int`.) -/
inductive JVal where
  | vNull : JVal
  | vBool : Bool → JVal
  | vInt : Int → JVal
  | vStr : String → JVal
deriving DecidableEq

/-- A JSON object payload: an association list from keys to values. -/
abbrev Payload := List (String × JVal)

/-- Lookup of a key in a payload; `none` models a missing key
(distinct from a key present with JSON `null`). -/
def getKey (d : Payload) (k : String) : Option JVal :=
  (d.find? (fun p => p.1 == k)).map (fun p => p.2)

/-- Python `k in data` on a dict. -/
def hasKey (d : Payload) (k : String) : Bool :=
  (getKey d k).isSome

/-- Python `data.get(k)`: the value if present, `None` otherwise. -/
def dget (d : Payload) (k : String) : JVal :=
  (getKey d k).getD JVal.vNull

/-- Python `data.get(k, default)`. -/
def dgetD (d : Payload) (k : String) (v : JVal) : JVal :=
  (getKey d k).getD v

/-- Python truthiness of a JSON scalar: `None`, `False`, `0` and `""`
are falsy, everything else is truthy. -/
def truthy : JVal → Bool
  | JVal.vNull => false
  | JVal.vBool b => b
  | JVal.vInt n => n != 0
  | JVal.vStr s => s != ""

/-- Digits of a numeral string to a natural number. -/
def digitsToNat (cs : List Char) : Nat :=
  cs.foldl (fun a c => a * 10 + (c.toNat - 48)) 0

/-- Python `int(s)` on a string: optional surrounding spaces, an optional
sign, then a nonempty run of decimal digits; anything else raises
`ValueError` (modelled as `none`). -/
def parseIntStr (s : String) : Option Int :=
  let cs := ((s.toList.dropWhile (fun c => c == ' ')).reverse.dropWhile
      (fun c => c == ' ')).reverse
  match cs with
  | '-' :: rest =>
      if rest ≠ [] ∧ rest.all Char.isDigit then some (-(digitsToNat rest : Int))
      else none
  | '+' :: rest =>
      if rest ≠ [] ∧ rest.all Char.isDigit then some (digitsToNat rest : Int)
      else none
  | rest =>
      if rest ≠ [] ∧ rest.all Char.isDigit then some (digitsToNat rest : Int)
      else none

/-- Python `int(x)` on a JSON scalar: ints pass through, bools map to
0/1, strings are parsed, `None` raises `TypeError` (`none`). -/
def pyInt : JVal → Option Int
  | JVal.vNull => none
  | JVal.vBool b => some (if b then 1 else 0)
  | JVal.vInt n => some n
  | JVal.vStr s => parseIntStr s

/-- `required_fields` from `validate_electronics_data`. -/
def required_fields : List String :=
  ["name", "category", "stock", "min_stock", "supplier"]

/-- `valid_categories` from `validate_electronics_data`. -/
def valid_categories : List String :=
  ["Microcontroller", "Sensor", "Motor", "Display",
   "Power Supply", "Communication Module", "Storage",
   "Passive Component", "Other"]

/-- Python `data["category"] not in valid_categories`, negated: a payload
value is a valid category iff it is one of the category strings. -/
def isValidCategory : JVal → Bool
  | JVal.vStr s => valid_categories.contains s
  | _ => false

/-- The fields among `required_fields` whose payload value is absent or
falsy (`[field for field in required_fields if not data.get(field)]`). -/
def missingFields (data : Payload) : List String :=
  required_fields.filter (fun f => !truthy (dget data f))

/-- The `try: int(data[key]) ...` block of `validate_electronics_data`
for one of the two stock keys: `none` means the check passed, `some msg`
is the error message returned. -/
def stockFieldError (data : Payload) (key negMsg typeMsg : String) :
    Option String :=
  if hasKey data key then
    match pyInt (dget data key) with
    | none => some typeMsg
    | some n => if n < 0 then some negMsg else none
  else none

/-- `validate_electronics_data(data, is_update)`: returns
`(is_valid, error_message)` exactly as the Python helper does. -/
def validate_electronics_data (data : Payload) (is_update : Bool) :
    Bool × Option String :=
  if !is_update && !(missingFields data).isEmpty then
    (false, some ("Missing required fields: " ++
      String.intercalate ", " (missingFields data)))
  else
    match stockFieldError data "stock" "Stock quantity must be non-negative"
        "Stock must be a valid number" with
    | some m => (false, some m)
    | none =>
      match stockFieldError data "min_stock"
          "Minimum stock must be non-negative"
          "Minimum stock must be a valid number" with
      | some m => (false, some m)
      | none =>
        if hasKey data "category" && !isValidCategory (dget data "category") then
          (false, some ("Invalid category. Must be one of: " ++
            String.intercalate ", " valid_categories))
        else (true, none)

/-- `get_stock_status(stock, min_stock)`. -/
def get_stock_status (stock min_stock : Int) : String :=
  if stock ≤ min_stock then "Low Stock" else "In Stock"

/-- A stored inventory document. `stock` and `min_stock` are `Int`
because the handlers store the result of Python `int(...)`; the fields
copied verbatim from the payload keep their JSON type; the
server-generated fields (`status`, timestamps, `_id`) are strings. -/
structure Item where
  _id : String
  name : JVal
  category : JVal
  stock : Int
  min_stock : Int
  specifications : JVal
  supplier : JVal
  status : String
  date_added : String
  last_updated : String
deriving DecidableEq

/-- An HTTP response as far as the claims observe it: a success with a
status code and the returned record (if the endpoint returns one), or a
failure with a status code and the `error` message. -/
inductive Response where
  | success : Nat → Option Item → Response
  | failure : Nat → String → Response
deriving DecidableEq

/-- `bson.ObjectId.is_valid` on a string: exactly 24 hexadecimal
characters. -/
def isValidObjectId (s : String) : Bool :=
  s.length == 24 && s.toList.all (fun c =>
    c.isDigit || ('a' ≤ c && c ≤ 'f') || ('A' ≤ c && c ≤ 'F'))

/-- `add_electronics` (POST `/add-electronics`). `now` stands for
`datetime.utcnow().isoformat()` and `newId` for the ObjectId the store
generates on insert. Returns the new store and the response; the
`(none, _)` fallthrough models the `except`-to-500 wrapper (unreachable
after successful validation). -/
def add_electronics (data : Payload) (now newId : String)
    (store : List Item) : List Item × Response :=
  match validate_electronics_data data false with
  | (false, msg) => (store, Response.failure 400 (msg.getD ""))
  | (true, _) =>
    match pyInt (dget data "stock"), pyInt (dget data "min_stock") with
    | some stock, some min_stock =>
      let new_item : Item :=
        { _id := newId
          name := dget data "name"
          category := dget data "category"
          stock := stock
          min_stock := min_stock
          specifications := dgetD data "specifications" (JVal.vStr "")
          supplier := dget data "supplier"
          status := get_stock_status stock min_stock
          date_added := now
          last_updated := now }
      (store ++ [new_item], Response.success 201 (some new_item))
    | _, _ => (store, Response.failure 500 "Failed to add component")

/-- `get_electronics_by_id` (GET `/items/<item_id>`): read-only, so only
the response is returned. -/
def get_electronics_by_id (item_id : String) (store : List Item) : Response :=
  if !isValidObjectId item_id then Response.failure 400 "Invalid item ID"
  else
    match store.find? (fun it => it._id == item_id) with
    | none => Response.failure 404 "Component not found"
    | some it => Response.success 200 (some it)

/-- Apply the first update-matching document transformation `f`, the way
`update_one` applies `$set` to the first document matching the filter. -/
def updateFirst (p : Item → Bool) (f : Item → Item) : List Item → List Item
  | [] => []
  | x :: xs => if p x then f x :: xs else x :: updateFirst p f xs

/-- The effect of `update_one`'s `$set` with the `update_data` dict built
by `update_electronics`: `last_updated` always, each payload-present field,
`stock`/`min_stock` from their int conversions, and `status` when the
handler put one into `update_data`. -/
def setFields (it : Item) (data : Payload) (ostock omin : Option Int)
    (st : Option String) (now : String) : Item :=
  { it with
    last_updated := now
    name := (getKey data "name").getD it.name
    category := (getKey data "category").getD it.category
    stock := ostock.getD it.stock
    min_stock := omin.getD it.min_stock
    specifications := (getKey data "specifications").getD it.specifications
    supplier := (getKey data "supplier").getD it.supplier
    status := st.getD it.status }

/-- Int conversion of an optional payload stock field for the update
handler: outer `none` models `int(...)` raising (caught as a 500);
`some none` means the key is absent from the payload. -/
def convStock (data : Payload) (k : String) : Option (Option Int) :=
  if hasKey data k then (pyInt (dget data k)).map some else some none

/-- The `update_one` + re-fetch tail of `update_electronics`: 404 when no
document matches, otherwise apply `$set` to the first match and return
the re-fetched document (the unreachable re-fetch failure maps to the
500 wrapper, as the Python `None` crash would). -/
def update_apply (item_id : String) (data : Payload)
    (ostock omin : Option Int) (st : Option String) (now : String)
    (store : List Item) : List Item × Response :=
  if store.any (fun it => it._id == item_id) then
    match (updateFirst (fun it => it._id == item_id)
        (fun it => setFields it data ostock omin st now) store).find?
        (fun it => it._id == item_id) with
    | some it =>
      (updateFirst (fun it => it._id == item_id)
        (fun it => setFields it data ostock omin st now) store,
       Response.success 200 (some it))
    | none =>
      (updateFirst (fun it => it._id == item_id)
        (fun it => setFields it data ostock omin st now) store,
       Response.failure 500 "Failed to update component")
  else (store, Response.failure 404 "Component not found")

/-- `update_electronics` (PUT `/items/<item_id>`). -/
def update_electronics (item_id : String) (data : Payload) (now : String)
    (store : List Item) : List Item × Response :=
  if !isValidObjectId item_id then
    (store, Response.failure 400 "Invalid item ID")
  else
    match validate_electronics_data data true with
    | (false, msg) => (store, Response.failure 400 (msg.getD ""))
    | (true, _) =>
      match convStock data "stock", convStock data "min_stock" with
      | some ostock, some omin =>
        if ostock.isSome || omin.isSome then
          match store.find? (fun it => it._id == item_id) with
          | none => (store, Response.failure 404 "Component not found")
          | some current =>
            let stock := ostock.getD current.stock
            let min_stock := omin.getD current.min_stock
            update_apply item_id data ostock omin
              (some (get_stock_status stock min_stock)) now store
        else update_apply item_id data ostock omin none now store
      | _, _ => (store, Response.failure 500 "Failed to update component")

/-- `delete_electronics` (DELETE `/items/<item_id>`): `delete_one`
removes the first matching document. -/
def delete_electronics (item_id : String) (store : List Item) :
    List Item × Response :=
  if !isValidObjectId item_id then
    (store, Response.failure 400 "Invalid item ID")
  else if store.any (fun it => it._id == item_id) then
    (store.eraseP (fun it => it._id == item_id), Response.success 200 none)
  else (store, Response.failure 404 "Component not found")

/-! ### Search -/

/-- One token of the regex patterns this model covers: MongoDB `$regex`
(PCRE) restricted to literal characters and the `.` metacharacter, which
is all the repository's query strings need to exhibit regex behaviour. -/
inductive RTok where
  | lit : Char → RTok
  | dot : RTok
deriving DecidableEq

/-- Read a query string as a pattern: `.` matches any character, every
other character matches literally. -/
def parseRegex (q : String) : List RTok :=
  q.toList.map (fun c => if c == '.' then RTok.dot else RTok.lit c)

/-- One token against one subject character, case-insensitively
(`$options: "i"`). -/
def tokMatch : RTok → Char → Bool
  | RTok.dot, _ => true
  | RTok.lit c, d => c.toLower == d.toLower

/-- Match the whole pattern against a prefix of the subject. -/
def matchHere : List RTok → List Char → Bool
  | [], _ => true
  | _ :: _, [] => false
  | t :: ts, c :: cs => tokMatch t c && matchHere ts cs

/-- Unanchored regex search: the pattern matches starting at some
position of the subject. -/
def searchFrom (ts : List RTok) : List Char → Bool
  | [] => matchHere ts []
  | c :: cs => matchHere ts (c :: cs) || searchFrom ts cs

/-- MongoDB `{"$regex": q, "$options": "i"}` on a string field. -/
def regexSearchI (q s : String) : Bool :=
  searchFrom (parseRegex q) s.toList

/-- A `$regex` condition against a document field: only string values
can match. -/
def jvalRegexI (q : String) : JVal → Bool
  | JVal.vStr s => regexSearchI q s
  | _ => false

/-- The `$or` filter of `search_electronics`. -/
def searchMatch (q : String) (it : Item) : Bool :=
  jvalRegexI q it.name || jvalRegexI q it.category ||
  jvalRegexI q it.specifications || jvalRegexI q it.supplier

/-- `search_electronics` (GET `/search?q=...`); `q` is
`request.args.get("q", "")`, so a missing parameter arrives as `""`. -/
def search_electronics (q : String) (store : List Item) :
    Except (Nat × String) (List Item) :=
  if q == "" then Except.error (400, "Search query is required")
  else Except.ok (store.filter (searchMatch q))

/-! ### Reports -/

/-- Distinct grouping keys of an aggregation `$group`, in first-occurrence
order (MongoDB leaves the order unspecified; any fixed order is a valid
model). -/
def distinctKeys (l : List JVal) : List JVal :=
  l.foldl (fun acc k => if k ∈ acc then acc else acc ++ [k]) []

/-- `$group` by a key with `{"$sum": 1}`. -/
def groupCounts (l : List JVal) : List (JVal × Nat) :=
  (distinctKeys l).map (fun k => (k, l.count k))

/-- `{"$group": {"_id": None, "total_stock": {"$sum": "$stock"}}}` plus
the handler's `result[0]["total_stock"] if result else 0`. -/
def totalStockOf (store : List Item) : Int :=
  match store with
  | [] => 0
  | _ => (store.map (fun it => it.stock)).sum

/-- The low-stock filter `{"$expr": {"$lte": ["$stock", "$min_stock"]}}`. -/
def isLowStock (it : Item) : Bool :=
  it.stock ≤ it.min_stock

/-- The body of the GET `/stats` response. -/
structure Stats where
  total_components : Nat
  low_stock_items : Nat
  total_stock : Int
  categories : List (JVal × Nat)
deriving DecidableEq

/-- `get_statistics` (GET `/stats`). -/
def get_statistics (store : List Item) : Stats :=
  { total_components := store.length
    low_stock_items := (store.filter isLowStock).length
    total_stock := totalStockOf store
    categories := groupCounts (store.map (fun it => it.category)) }

/-- The body of the GET `/reports/stock-summary` response;
`in_stock_items` is a Python `int` subtraction, hence `Int`. -/
structure StockSummary where
  total_items : Nat
  low_stock_items : Nat
  in_stock_items : Int
  total_stock_quantity : Int
deriving DecidableEq

/-- `stock_summary` (GET `/reports/stock-summary`). -/
def stock_summary (store : List Item) : StockSummary :=
  { total_items := store.length
    low_stock_items := (store.filter isLowStock).length
    in_stock_items :=
      (store.length : Int) - ((store.filter isLowStock).length : Int)
    total_stock_quantity := totalStockOf store }

/-- One row of the category-breakdown report. -/
structure CatRow where
  category : JVal
  count : Nat
  total_stock : Int
deriving DecidableEq

/-- `category_breakdown` (GET `/reports/category-breakdown`). -/
def category_breakdown (store : List Item) : List CatRow :=
  (distinctKeys (store.map (fun it => it.category))).map (fun k =>
    { category := k
      count := (store.filter (fun it => it.category == k)).length
      total_stock :=
        ((store.filter (fun it => it.category == k)).map
          (fun it => it.stock)).sum })

/-- One row of the supplier-performance report. -/
structure SupRow where
  supplier : JVal
  total_items : Nat
  total_stock : Int
  low_stock_items : Nat
deriving DecidableEq

/-- `supplier_performance` (GET `/reports/supplier-performance`). -/
def supplier_performance (store : List Item) : List SupRow :=
  (distinctKeys (store.map (fun it => it.supplier))).map (fun k =>
    { supplier := k
      total_items := (store.filter (fun it => it.supplier == k)).length
      total_stock :=
        ((store.filter (fun it => it.supplier == k)).map
          (fun it => it.stock)).sum
      low_stock_items :=
        (store.filter (fun it => it.supplier == k && isLowStock it)).length })

/-- `$toDate` + `$year`/`$month` on a `date_added` string: the stored
timestamps are `datetime.utcnow().isoformat()` strings
(`YYYY-MM-DD...`), so the year is the first four digits and the month
the next two; a string not of that shape makes the aggregation raise
(modelled as `none`). -/
def parseYearMonth (s : String) : Option (Nat × Nat) :=
  match s.toList with
  | y1 :: y2 :: y3 :: y4 :: '-' :: m1 :: m2 :: _ =>
    if [y1, y2, y3, y4, m1, m2].all Char.isDigit then
      some (digitsToNat [y1, y2, y3, y4], digitsToNat [m1, m2])
    else none
  | _ => none

/-- Parse every date in the list, failing if any fails. -/
def parseAllDates : List String → Option (List (Nat × Nat))
  | [] => some []
  | s :: rest =>
    match parseYearMonth s, parseAllDates rest with
    | some ym, some rests => some (ym :: rests)
    | _, _ => none

/-- First-occurrence-order distinct (year, month) keys. -/
def distinctYM (l : List (Nat × Nat)) : List (Nat × Nat) :=
  l.foldl (fun acc k => if k ∈ acc then acc else acc ++ [k]) []

/-- Ascending order on (year, month), as the `$sort` stage requests. -/
def ymLe (a b : Nat × Nat) : Bool :=
  a.1 < b.1 || (a.1 == b.1 && a.2 ≤ b.2)

/-- Insertion into a list sorted by `ymLe`. -/
def ymInsert (x : (Nat × Nat) × Nat) :
    List ((Nat × Nat) × Nat) → List ((Nat × Nat) × Nat)
  | [] => [x]
  | y :: ys => if ymLe x.1 y.1 then x :: y :: ys else y :: ymInsert x ys

/-- Insertion sort by `ymLe`. -/
def ymSort : List ((Nat × Nat) × Nat) → List ((Nat × Nat) × Nat)
  | [] => []
  | x :: xs => ymInsert x (ymSort xs)

/-- `usage_trends` (GET `/reports/usage-trends`): items grouped by the
(year, month) of `date_added`, counted, sorted ascending; `none` is the
500 error path when a date fails to parse. -/
def usage_trends (store : List Item) :
    Option (List ((Nat × Nat) × Nat)) :=
  match parseAllDates (store.map (fun it => it.date_added)) with
  | none => none
  | some yms =>
    some (ymSort ((distinctYM yms).map (fun k => (k, yms.count k))))

/-- One supplier row of the full report (count + low-stock only). -/
structure FullSupRow where
  supplier : JVal
  count : Nat
  low_stock : Nat
deriving DecidableEq

/-- The body of the GET `/reports/full-report` response. -/
structure FullReport where
  total_items : Nat
  low_stock : Nat
  categories : List CatRow
  suppliers : List FullSupRow
deriving DecidableEq

/-- `full_report` (GET `/reports/full-report`). -/
def full_report (store : List Item) : FullReport :=
  { total_items := store.length
    low_stock := (store.filter isLowStock).length
    categories := category_breakdown store
    suppliers :=
      (distinctKeys (store.map (fun it => it.supplier))).map (fun k =>
        { supplier := k
          count := (store.filter (fun it => it.supplier == k)).length
          low_stock :=
            (store.filter
              (fun it => it.supplier == k && isLowStock it)).length }) }

/-- `get_low_stock_items` (GET `/low-stock`). -/
def get_low_stock_items (store : List Item) : List Item :=
  store.filter isLowStock

/-- `get_by_category` (GET `/category/<category>`): exact match of the
stored category value against the path string. -/
def get_by_category (category : String) (store : List Item) : List Item :=
  store.filter (fun it => it.category == JVal.vStr category)

/-! ### Spec-side definitions for the search claim -/

/-- Lower-cased character sequence of a string. -/
def lowerChars (s : String) : List Char :=
  s.toList.map Char.toLower

/-- Whether the first character sequence starts the second. -/
def startsWithChars : List Char → List Char → Bool
  | [], _ => true
  | _ :: _, [] => false
  | a :: as, b :: bs => a == b && startsWithChars as bs

/-- Whether the first character sequence occurs contiguously in the
second. -/
def occursIn (q : List Char) : List Char → Bool
  | [] => q.isEmpty
  | c :: cs => startsWithChars q (c :: cs) || occursIn q cs

/-- Modelled from the spec: case-insensitive substring occurrence of `q`
in `s`. -/
def substrMatchI (q s : String) : Bool :=
  occursIn (lowerChars q) (lowerChars s)

/-- The PCRE metacharacters; a query avoiding all of them is matched
literally by `$regex`. -/
def isRegexMeta (c : Char) : Bool :=
  c == '\\' || c == '^' || c == '$' || c == '.' || c == '|' || c == '?' ||
  c == '*' || c == '+' || c == '(' || c == ')' || c == '[' || c == ']' ||
  c == '\x7b' || c == '\x7d'

/-- The string carried by a string-valued field. -/
def strOf : JVal → String
  | JVal.vStr s => s
  | _ => ""

/-- The searchable fields hold strings, as the spec's data model
requires. -/
def stringFields (it : Item) : Prop :=
  (∃ s, it.name = JVal.vStr s) ∧ (∃ s, it.category = JVal.vStr s) ∧
  (∃ s, it.specifications = JVal.vStr s) ∧ (∃ s, it.supplier = JVal.vStr s)

/-- Modelled from the spec: `q` occurs as a case-insensitive substring
of at least one of the four searchable fields. -/
def specSearchMatch (q : String) (it : Item) : Bool :=
  substrMatchI q (strOf it.name) || substrMatchI q (strOf it.category) ||
  substrMatchI q (strOf it.specifications) ||
  substrMatchI q (strOf it.supplier)

/-! ### Sample data used by witnesses -/

/-- A syntactically valid ObjectId (24 hex characters). -/
def oid24 : String := "aaaaaaaaaaaaaaaaaaaaaaaa"

/-- The record created by a successful sample create. -/
def sampleItem : Item :=
  { _id := oid24
    name := JVal.vStr "Arduino Uno"
    category := JVal.vStr "Microcontroller"
    stock := 5
    min_stock := 10
    specifications := JVal.vStr ""
    supplier := JVal.vStr "Acme"
    status := "Low Stock"
    date_added := "T"
    last_updated := "T" }

/-- A well-formed create payload. -/
def samplePayload : Payload :=
  [("name", JVal.vStr "Arduino Uno"),
   ("category", JVal.vStr "Microcontroller"),
   ("stock", JVal.vInt 5), ("min_stock", JVal.vInt 10),
   ("supplier", JVal.vStr "Acme")]

/-- The sample record after updating `stock` to 20. -/
def updatedItem : Item :=
  { sampleItem with stock := 20, status := "In Stock", last_updated := "T2" }

/-- The sample record after updating only `supplier`. -/
def reSupplied : Item :=
  { sampleItem with supplier := JVal.vStr "BetaCorp", last_updated := "T3" }

/-- A record whose `category` is `"Sensor"`, for the search witness. -/
def sensorItem : Item :=
  { _id := oid24
    name := JVal.vStr "Thermo"
    category := JVal.vStr "Sensor"
    stock := 3
    min_stock := 1
    specifications := JVal.vStr ""
    supplier := JVal.vStr "Acme"
    status := "In Stock"
    date_added := "T"
    last_updated := "T" }

/-- A create payload whose `stock` is the truthy string `"0"`. -/
def zeroPayload : Payload :=
  [("name", JVal.vStr "Zero"), ("category", JVal.vStr "Sensor"),
   ("stock", JVal.vStr "0"), ("min_stock", JVal.vInt 1),
   ("supplier", JVal.vStr "Acme")]

/-- The record `zeroPayload` successfully creates: its stock is 0. -/
def zeroItem : Item :=
  { _id := oid24
    name := JVal.vStr "Zero"
    category := JVal.vStr "Sensor"
    stock := 0
    min_stock := 1
    specifications := JVal.vStr ""
    supplier := JVal.vStr "Acme"
    status := "Low Stock"
    date_added := "T"
    last_updated := "T" }

/-- The payload keys a client cannot use to influence a stored record:
the handlers never read them from the request body. -/
def forgedKeys : List String :=
  ["status", "date_added", "last_updated", "_id"]

/-- A create payload whose `stock` is the integer 0. -/
def falsyPayload : Payload :=
  [("name", JVal.vStr "X"), ("category", JVal.vStr "Sensor"),
   ("stock", JVal.vInt 0), ("min_stock", JVal.vInt 2),
   ("supplier", JVal.vStr "Acme")]

/-- The sample payload with an attempted `status` injection. -/
def forgingPayload1 : Payload :=
  samplePayload ++ [("status", JVal.vStr "In Stock")]

/-- The sample payload with a different attempted `status` injection. -/
def forgingPayload2 : Payload :=
  samplePayload ++ [("status", JVal.vStr "HACKED")]

/-! ### Helper lemmas -/

theorem status_low_iff (s m : Int) :
    (get_stock_status s m = "Low Stock" ↔ s ≤ m) ∧
    (get_stock_status s m = "In Stock" ↔ ¬ s ≤ m) := by
  unfold get_stock_status
  by_cases h : s ≤ m <;> simp [h]

theorem validate_missing (data : Payload)
    (h : missingFields data ≠ []) :
    validate_electronics_data data false =
      (false, some ("Missing required fields: " ++
        String.intercalate ", " (missingFields data))) := by
  unfold validate_electronics_data
  simp [List.isEmpty_iff, h]

theorem stockFieldError_none_iff (data : Payload) (k n t : String) :
    stockFieldError data k n t = none ↔
      (∀ v, getKey data k = some v → ∃ m, pyInt v = some m ∧ 0 ≤ m) := by
  unfold stockFieldError hasKey dget
  cases hk : getKey data k with
  | none => simp
  | some v =>
    simp only [Option.isSome_some, if_true, Option.getD_some]
    cases hp : pyInt v with
    | none => simp [hp]
    | some m =>
      by_cases hm : m < 0
      · simp [hp, hm]
      · simp [hp, hm]
        omega

theorem category_ok_iff (data : Payload) :
    (hasKey data "category" && !isValidCategory (dget data "category")) = false ↔
      (∀ v, getKey data "category" = some v → isValidCategory v = true) := by
  unfold hasKey dget
  cases hk : getKey data "category" with
  | none => simp
  | some v => simp

theorem validate_true_iff_bool (data : Payload) (u : Bool) :
    (validate_electronics_data data u).1 = true ↔
      ((!u && !(missingFields data).isEmpty) = false ∧
       stockFieldError data "stock" "Stock quantity must be non-negative"
         "Stock must be a valid number" = none ∧
       stockFieldError data "min_stock" "Minimum stock must be non-negative"
         "Minimum stock must be a valid number" = none ∧
       (hasKey data "category" && !isValidCategory (dget data "category"))
         = false) := by
  unfold validate_electronics_data
  by_cases hm : (!u && !(missingFields data).isEmpty) = true
  · simp [hm]
  · have hm' : (!u && !(missingFields data).isEmpty) = false := by
      simpa using hm
    rw [if_neg hm]
    rcases hse1 : stockFieldError data "stock"
        "Stock quantity must be non-negative"
        "Stock must be a valid number" with _ | m1
    · rcases hse2 : stockFieldError data "min_stock"
          "Minimum stock must be non-negative"
          "Minimum stock must be a valid number" with _ | m2
      · by_cases hc : (hasKey data "category" &&
            !isValidCategory (dget data "category")) = true
        · simp [hm', hse1, hse2, hc]
        · have hc' : (hasKey data "category" &&
              !isValidCategory (dget data "category")) = false := by
            simpa using hc
          simp [hm', hse1, hse2, hc']
      · simp [hm', hse1, hse2]
    · simp [hm', hse1]

theorem add_success_inv (data : Payload) (now newId : String)
    (store store' : List Item) (it : Item)
    (h : add_electronics data now newId store =
      (store', Response.success 201 (some it))) :
    ∃ stock min_stock,
      pyInt (dget data "stock") = some stock ∧
      pyInt (dget data "min_stock") = some min_stock ∧
      it = { _id := newId, name := dget data "name",
             category := dget data "category",
             stock := stock, min_stock := min_stock,
             specifications := dgetD data "specifications" (JVal.vStr ""),
             supplier := dget data "supplier",
             status := get_stock_status stock min_stock,
             date_added := now, last_updated := now } ∧
      store' = store ++ [it] := by
  unfold add_electronics at h
  rcases hv : validate_electronics_data data false with ⟨b, msg⟩
  rw [hv] at h
  cases b
  · simp at h
  · rcases hs : pyInt (dget data "stock") with _ | stock <;> rw [hs] at h
    · simp at h
    · rcases hm : pyInt (dget data "min_stock") with _ | min_stock <;>
        rw [hm] at h
      · simp at h
      · simp only [Prod.mk.injEq, Response.success.injEq,
          Option.some.injEq] at h
        obtain ⟨h1, -, h3⟩ := h
        refine ⟨stock, min_stock, rfl, rfl, h3.symm, ?_⟩
        rw [← h3]
        exact h1.symm

theorem id_setFields (x : Item) (data : Payload) (o m : Option Int)
    (s : Option String) (n : String) :
    (setFields x data o m s n)._id = x._id := rfl

theorem find?_updateFirst (item_id : String) (data : Payload)
    (o m : Option Int) (s : Option String) (n : String) :
    ∀ (l : List Item) (x : Item),
      l.find? (fun y => y._id == item_id) = some x →
      (updateFirst (fun y => y._id == item_id)
          (fun y => setFields y data o m s n) l).find?
          (fun y => y._id == item_id) = some (setFields x data o m s n)
  | [], x, hx => by simp at hx
  | a :: l, x, hx => by
    by_cases h : ((fun y : Item => y._id == item_id) a) = true
    · rw [List.find?_cons_of_pos (p := fun y : Item => y._id == item_id)
        l h] at hx
      injection hx with hx
      subst hx
      unfold updateFirst
      rw [if_pos h]
      exact List.find?_cons_of_pos (p := fun y : Item => y._id == item_id) _
        (by show ((setFields a data o m s n)._id == item_id) = true
            rw [id_setFields]; exact h)
    · rw [List.find?_cons_of_neg (p := fun y : Item => y._id == item_id)
        l h] at hx
      unfold updateFirst
      rw [if_neg h,
        List.find?_cons_of_neg (p := fun y : Item => y._id == item_id) _ h]
      exact find?_updateFirst item_id data o m s n l x hx

theorem convStock_hasKey (data : Payload) (k : String) (o : Option Int)
    (hk : hasKey data k = true) (hc : convStock data k = some o) :
    o.isSome = true := by
  unfold convStock at hc
  rw [if_pos hk] at hc
  rcases hp : pyInt (dget data k) with _ | n <;> rw [hp] at hc <;>
    simp at hc
  rw [← hc]
  rfl

theorem convStock_noKey (data : Payload) (k : String) (o : Option Int)
    (hk : hasKey data k = false) (hc : convStock data k = some o) :
    o = none := by
  unfold convStock at hc
  rw [hk] at hc
  simp at hc
  exact hc.symm

theorem update_success_inv (item_id : String) (data : Payload)
    (now : String) (store store' : List Item) (it : Item)
    (h : update_electronics item_id data now store =
      (store', Response.success 200 (some it))) :
    ∃ old ostock omin st,
      store.find? (fun y => y._id == item_id) = some old ∧
      convStock data "stock" = some ostock ∧
      convStock data "min_stock" = some omin ∧
      it = setFields old data ostock omin st now ∧
      store' = updateFirst (fun y => y._id == item_id)
        (fun y => setFields y data ostock omin st now) store ∧
      ((ostock.isSome || omin.isSome) = true →
        st = some (get_stock_status (ostock.getD old.stock)
          (omin.getD old.min_stock))) ∧
      ((ostock.isSome || omin.isSome) = false → st = none) := by
  unfold update_electronics at h
  cases hid : isValidObjectId item_id <;> rw [hid] at h
  · simp at h
  · simp only [Bool.not_true, Bool.false_eq_true, if_false] at h
    rcases hv : validate_electronics_data data true with ⟨b, msg⟩
    rw [hv] at h
    cases b
    · simp at h
    · simp only [] at h
      rcases hc1 : convStock data "stock" with _ | ostock <;> rw [hc1] at h
      · simp at h
      · rcases hc2 : convStock data "min_stock" with _ | omin <;>
          rw [hc2] at h
        · simp at h
        · simp only [] at h
          cases hss : (ostock.isSome || omin.isSome) <;> rw [hss] at h
          · simp only [Bool.false_eq_true, if_false] at h
            unfold update_apply at h
            cases hany : store.any (fun y => y._id == item_id) <;>
              rw [hany] at h
            · simp at h
            · obtain ⟨x, hxm, hxp⟩ := List.any_eq_true.mp hany
              obtain ⟨old, hold⟩ := Option.isSome_iff_exists.mp
                ((List.find?_isSome
                  (p := fun y : Item => y._id == item_id)).mpr ⟨x, hxm, hxp⟩)
              rw [find?_updateFirst item_id data ostock omin none now
                store old hold] at h
              simp at h
              refine ⟨old, ostock, omin, none, hold, rfl, rfl,
                h.2.symm, h.1.symm, ?_, fun _ => rfl⟩
              intro hcon
              rw [hss] at hcon
              simp at hcon
          · rcases hf : store.find? (fun y => y._id == item_id)
                with _ | current <;> rw [hf] at h
            · simp at h
            · simp only [] at h
              unfold update_apply at h
              have hany : store.any (fun y => y._id == item_id) = true :=
                List.any_eq_true.mpr ⟨current,
                  List.mem_of_find?_eq_some hf,
                  List.find?_some (p := fun y : Item => y._id == item_id) hf⟩
              rw [hany] at h
              rw [find?_updateFirst item_id data ostock omin
                (some (get_stock_status (ostock.getD current.stock)
                  (omin.getD current.min_stock))) now store current hf] at h
              simp at h
              exact ⟨current, ostock, omin, _, hf, rfl, rfl,
                h.2.symm, h.1.symm, fun _ => rfl, fun hcon => by
                  rw [hss] at hcon
                  simp at hcon⟩

/-! ### C2: validator contract -/

/-- Claim C2: `validate(payload, isUpdate)` succeeds iff (on create) no
required field is absent or falsy, any present `stock`/`min_stock`
converts to a non-negative integer, and any present `category` is in the
fixed enum; on update, absence is never an error; a create with missing
fields reports them all in the error message. -/
theorem validate_spec (data : Payload) (is_update : Bool) :
    ((validate_electronics_data data is_update).1 = true ↔
      ((is_update = false → missingFields data = []) ∧
       (∀ v, getKey data "stock" = some v →
          ∃ n, pyInt v = some n ∧ 0 ≤ n) ∧
       (∀ v, getKey data "min_stock" = some v →
          ∃ n, pyInt v = some n ∧ 0 ≤ n) ∧
       (∀ v, getKey data "category" = some v →
          isValidCategory v = true))) ∧
    (is_update = false → missingFields data ≠ [] →
      validate_electronics_data data is_update =
        (false, some ("Missing required fields: " ++
          String.intercalate ", " (missingFields data)))) := by
  constructor
  · apply Iff.trans (validate_true_iff_bool data is_update)
    apply and_congr
    · cases is_update <;> simp [List.isEmpty_iff]
    apply and_congr (stockFieldError_none_iff data "stock" _ _)
    apply and_congr (stockFieldError_none_iff data "min_stock" _ _)
    exact category_ok_iff data
  · intro hu h
    subst hu
    exact validate_missing data h

/-- Witness for C2: the empty payload on create is rejected listing all
five required fields. -/
theorem validate_spec_witness :
    missingFields ([] : Payload) ≠ [] ∧
    validate_electronics_data [] false =
      (false, some ("Missing required fields: " ++
        String.intercalate ", " (missingFields []))) :=
  ⟨by decide, (validate_spec [] false).2 rfl (by decide)⟩

/-! ### C1: stock status invariant -/

/-- Claim C1: every record stored by a successful create, and every
record stored by a successful partial update that supplies `stock`
and/or `min_stock`, has `status = "Low Stock"` iff its stored
`stock <= min_stock`, and `status = "In Stock"` otherwise. -/
theorem status_invariant (data : Payload) (now newId item_id : String)
    (store store' : List Item) (it : Item) :
    (add_electronics data now newId store =
        (store', Response.success 201 (some it)) →
      it ∈ store' ∧
      (it.status = "Low Stock" ↔ it.stock ≤ it.min_stock) ∧
      (it.status = "In Stock" ↔ ¬ it.stock ≤ it.min_stock)) ∧
    ((hasKey data "stock" || hasKey data "min_stock") = true →
      update_electronics item_id data now store =
        (store', Response.success 200 (some it)) →
      it ∈ store' ∧
      (it.status = "Low Stock" ↔ it.stock ≤ it.min_stock) ∧
      (it.status = "In Stock" ↔ ¬ it.stock ≤ it.min_stock)) := by
  constructor
  · intro h
    obtain ⟨stock, min_stock, hs, hm, hit, hst⟩ :=
      add_success_inv data now newId store store' it h
    refine ⟨by rw [hst]; simp, ?_⟩
    rw [hit]
    exact status_low_iff stock min_stock
  · intro hk h
    obtain ⟨old, ostock, omin, st, hold, hc1, hc2, hit, hst, hsome, hnone⟩ :=
      update_success_inv item_id data now store store' it h
    have hos : (ostock.isSome || omin.isSome) = true := by
      cases Bool.or_eq_true_iff.mp hk with
      | inl h1 =>
        rw [convStock_hasKey data "stock" ostock h1 hc1]
        rfl
      | inr h2 =>
        rw [convStock_hasKey data "min_stock" omin h2 hc2]
        simp
    refine ⟨?_, ?_⟩
    · rw [hit, hst]
      exact List.mem_of_find?_eq_some
        (find?_updateFirst item_id data ostock omin st now store old hold)
    · rw [hit, hsome hos]
      exact status_low_iff (ostock.getD old.stock) (omin.getD old.min_stock)

/-- Witness for C1: creating the sample record yields "Low Stock"
(5 <= 10); raising its stock to 20 yields "In Stock". -/
theorem status_invariant_witness :
    (sampleItem ∈ [sampleItem] ∧
     (sampleItem.status = "Low Stock" ↔
        sampleItem.stock ≤ sampleItem.min_stock) ∧
     (sampleItem.status = "In Stock" ↔
        ¬ sampleItem.stock ≤ sampleItem.min_stock)) ∧
    (updatedItem ∈ [updatedItem] ∧
     (updatedItem.status = "Low Stock" ↔
        updatedItem.stock ≤ updatedItem.min_stock) ∧
     (updatedItem.status = "In Stock" ↔
        ¬ updatedItem.stock ≤ updatedItem.min_stock)) :=
  ⟨(status_invariant samplePayload "T" oid24 oid24 [] [sampleItem]
      sampleItem).1 (by decide),
   (status_invariant [("stock", JVal.vInt 20)] "T2" oid24 oid24 [sampleItem]
      [updatedItem] updatedItem).2 (by decide) (by decide)⟩

/-! ### C3: partial-update frame -/

/-- Claim C3: a successful partial update leaves every field absent from
the payload unchanged; `last_updated` is always set to the update time,
`date_added` never changes, and `status` is untouched when neither stock
field is supplied. -/
theorem update_frame (item_id : String) (data : Payload) (now : String)
    (store store' : List Item) (it old : Item)
    (hold : store.find? (fun y => y._id == item_id) = some old)
    (hupd : update_electronics item_id data now store =
      (store', Response.success 200 (some it))) :
    (hasKey data "name" = false → it.name = old.name) ∧
    (hasKey data "category" = false → it.category = old.category) ∧
    (hasKey data "stock" = false → it.stock = old.stock) ∧
    (hasKey data "min_stock" = false → it.min_stock = old.min_stock) ∧
    (hasKey data "specifications" = false →
      it.specifications = old.specifications) ∧
    (hasKey data "supplier" = false → it.supplier = old.supplier) ∧
    it.date_added = old.date_added ∧
    it.last_updated = now ∧
    (hasKey data "stock" = false → hasKey data "min_stock" = false →
      it.status = old.status) := by
  obtain ⟨old', ostock, omin, st, hold', hc1, hc2, hit, hst, hsome, hnone⟩ :=
    update_success_inv item_id data now store store' it hupd
  rw [hold] at hold'
  injection hold' with hold'
  subst hold'
  have hkn : ∀ k, hasKey data k = false → getKey data k = none := by
    intro k hk
    unfold hasKey at hk
    cases hgk : getKey data k
    · rfl
    · rw [hgk] at hk
      cases hk
  refine ⟨?_, ?_, ?_, ?_, ?_, ?_, ?_, ?_, ?_⟩
  · intro hk
    rw [hit]
    show (getKey data "name").getD old.name = old.name
    rw [hkn _ hk]
    rfl
  · intro hk
    rw [hit]
    show (getKey data "category").getD old.category = old.category
    rw [hkn _ hk]
    rfl
  · intro hk
    rw [hit]
    show ostock.getD old.stock = old.stock
    rw [convStock_noKey data "stock" ostock hk hc1]
    rfl
  · intro hk
    rw [hit]
    show omin.getD old.min_stock = old.min_stock
    rw [convStock_noKey data "min_stock" omin hk hc2]
    rfl
  · intro hk
    rw [hit]
    show (getKey data "specifications").getD old.specifications =
      old.specifications
    rw [hkn _ hk]
    rfl
  · intro hk
    rw [hit]
    show (getKey data "supplier").getD old.supplier = old.supplier
    rw [hkn _ hk]
    rfl
  · rw [hit]
    rfl
  · rw [hit]
    rfl
  · intro h1 h2
    have ho1 := convStock_noKey data "stock" ostock h1 hc1
    have ho2 := convStock_noKey data "min_stock" omin h2 hc2
    have hzz : (ostock.isSome || omin.isSome) = false := by
      rw [ho1, ho2]
      rfl
    rw [hit, hnone hzz]
    show old.status = old.status
    rfl

/-- Witness for C3: updating only `supplier` leaves every other stored
field of the sample record unchanged and refreshes `last_updated`. -/
theorem update_frame_witness :
    (hasKey [("supplier", JVal.vStr "BetaCorp")] "name" = false →
      reSupplied.name = sampleItem.name) ∧
    (hasKey [("supplier", JVal.vStr "BetaCorp")] "category" = false →
      reSupplied.category = sampleItem.category) ∧
    (hasKey [("supplier", JVal.vStr "BetaCorp")] "stock" = false →
      reSupplied.stock = sampleItem.stock) ∧
    (hasKey [("supplier", JVal.vStr "BetaCorp")] "min_stock" = false →
      reSupplied.min_stock = sampleItem.min_stock) ∧
    (hasKey [("supplier", JVal.vStr "BetaCorp")] "specifications" = false →
      reSupplied.specifications = sampleItem.specifications) ∧
    (hasKey [("supplier", JVal.vStr "BetaCorp")] "supplier" = false →
      reSupplied.supplier = sampleItem.supplier) ∧
    reSupplied.date_added = sampleItem.date_added ∧
    reSupplied.last_updated = "T3" ∧
    (hasKey [("supplier", JVal.vStr "BetaCorp")] "stock" = false →
      hasKey [("supplier", JVal.vStr "BetaCorp")] "min_stock" = false →
      reSupplied.status = sampleItem.status) :=
  update_frame oid24 [("supplier", JVal.vStr "BetaCorp")] "T3" [sampleItem]
    [reSupplied] reSupplied sampleItem (by decide) (by decide)

/-! ### C4: search -/

theorem matchHere_lit : ∀ (qs cs : List Char),
    matchHere (qs.map RTok.lit) cs =
      startsWithChars (qs.map Char.toLower) (cs.map Char.toLower)
  | [], _ => rfl
  | _ :: _, [] => rfl
  | q :: qs, c :: cs => by
    show (tokMatch (RTok.lit q) c && matchHere (qs.map RTok.lit) cs) = _
    rw [matchHere_lit qs cs]
    rfl

theorem searchFrom_lit : ∀ (qs cs : List Char),
    searchFrom (qs.map RTok.lit) cs =
      occursIn (qs.map Char.toLower) (cs.map Char.toLower)
  | qs, [] => by
    show matchHere (qs.map RTok.lit) [] = (qs.map Char.toLower).isEmpty
    cases qs
    · rfl
    · rfl
  | qs, c :: cs => by
    show (matchHere (qs.map RTok.lit) (c :: cs) ||
        searchFrom (qs.map RTok.lit) cs) = _
    rw [matchHere_lit qs (c :: cs), searchFrom_lit qs cs]
    rfl

theorem parseRegex_noMeta (q : String)
    (h : ∀ c ∈ q.toList, isRegexMeta c = false) :
    parseRegex q = q.toList.map RTok.lit := by
  unfold parseRegex
  apply List.map_congr_left
  intro c hc
  have hcm := h c hc
  have hdot : (c == '.') = false := by
    cases hh : (c == '.')
    · rfl
    · exfalso
      have hcd : c = '.' := by simpa using hh
      rw [hcd] at hcm
      simp [isRegexMeta] at hcm
  rw [hdot]
  rfl

theorem regexSearchI_substr (q s : String)
    (h : ∀ c ∈ q.toList, isRegexMeta c = false) :
    regexSearchI q s = substrMatchI q s := by
  unfold regexSearchI substrMatchI lowerChars
  rw [parseRegex_noMeta q h]
  exact searchFrom_lit q.toList s.toList

theorem searchMatch_spec (q : String)
    (h : ∀ c ∈ q.toList, isRegexMeta c = false) (it : Item)
    (hit : stringFields it) :
    searchMatch q it = specSearchMatch q it := by
  obtain ⟨⟨s1, h1⟩, ⟨s2, h2⟩, ⟨s3, h3⟩, ⟨s4, h4⟩⟩ := hit
  unfold searchMatch specSearchMatch
  rw [h1, h2, h3, h4]
  show (regexSearchI q s1 || regexSearchI q s2 || regexSearchI q s3 ||
      regexSearchI q s4) =
    (substrMatchI q s1 || substrMatchI q s2 || substrMatchI q s3 ||
      substrMatchI q s4)
  rw [regexSearchI_substr q s1 h, regexSearchI_substr q s2 h,
    regexSearchI_substr q s3 h, regexSearchI_substr q s4 h]

/-- Counterexample to C4 as stated: the code hands the query to MongoDB
as a regular expression, so the query `"."` matches the sample record
(its name has at least one character) even though `"."` is not a
substring of any of its fields. -/
theorem search_regex_counterexample :
    search_electronics "." [sampleItem] = Except.ok [sampleItem] ∧
    specSearchMatch "." sampleItem = false := by
  constructor
  · rfl
  · rfl

/-- Claim C4 (amended): for every non-empty query free of regex
metacharacters, over records whose searchable fields are strings, search
returns exactly the records in which the query occurs as a
case-insensitive substring of name, category, specifications or
supplier; an empty or missing query fails with the missing-query error
(HTTP 400). -/
theorem search_substring_amended (q : String) (store : List Item)
    (hq : q ≠ "")
    (hmeta : ∀ c ∈ q.toList, isRegexMeta c = false)
    (hfields : ∀ it ∈ store, stringFields it) :
    search_electronics q store =
      Except.ok (store.filter (specSearchMatch q)) ∧
    search_electronics "" store =
      Except.error (400, "Search query is required") := by
  constructor
  · unfold search_electronics
    rw [if_neg (by simp [hq])]
    exact congrArg Except.ok
      (List.filter_congr (fun it hit => searchMatch_spec q hmeta it
        (hfields it hit)))
  · rfl

/-- Witness for the amended C4: the query `"sensor"` finds the record
whose category is `"Sensor"`, case-insensitively. -/
theorem search_substring_amended_witness :
    search_electronics "sensor" [sensorItem] =
      Except.ok ([sensorItem].filter (specSearchMatch "sensor")) ∧
    search_electronics "" [sensorItem] =
      Except.error (400, "Search query is required") :=
  search_substring_amended "sensor" [sensorItem] (by decide) (by decide)
    (by
      intro it hit
      rw [List.mem_singleton] at hit
      subst hit
      exact ⟨⟨"Thermo", rfl⟩, ⟨"Sensor", rfl⟩, ⟨"", rfl⟩, ⟨"Acme", rfl⟩⟩)

/-! ### C5: malformed identifiers fail fast -/

/-- Claim C5: for every malformed identifier, fetch-by-id, update and
delete fail with the invalid-identifier error (HTTP 400) and leave the
store untouched. -/
theorem invalid_id_rejected (item_id : String)
    (hbad : isValidObjectId item_id = false) (data : Payload) (now : String)
    (store : List Item) :
    get_electronics_by_id item_id store =
      Response.failure 400 "Invalid item ID" ∧
    update_electronics item_id data now store =
      (store, Response.failure 400 "Invalid item ID") ∧
    delete_electronics item_id store =
      (store, Response.failure 400 "Invalid item ID") := by
  unfold get_electronics_by_id update_electronics delete_electronics
  simp [hbad]

/-- Witness for C5 at the malformed identifier `"abc"`. -/
theorem invalid_id_rejected_witness :
    isValidObjectId "abc" = false ∧
    get_electronics_by_id "abc" [] =
      Response.failure 400 "Invalid item ID" ∧
    update_electronics "abc" [] "T" [] =
      ([], Response.failure 400 "Invalid item ID") ∧
    delete_electronics "abc" [] =
      ([], Response.failure 400 "Invalid item ID") :=
  ⟨by decide, invalid_id_rejected "abc" (by decide) [] "T" []⟩

/-! ### C6: delete of a missing id, idempotent delete -/

theorem eraseP_no_more (item_id : String) :
    ∀ store : List Item, (store.map (fun it => it._id)).Nodup →
      store.any (fun it => it._id == item_id) = true →
      (store.eraseP (fun it => it._id == item_id)).any
        (fun it => it._id == item_id) = false
  | [], _, hx => by simp at hx
  | a :: l, hnd, hx => by
    rw [List.map_cons, List.nodup_cons] at hnd
    by_cases h : ((fun it : Item => it._id == item_id) a) = true
    · rw [List.eraseP_cons_of_pos (p := fun it : Item => it._id == item_id) h]
      cases hl : l.any (fun it => it._id == item_id)
      · rfl
      · obtain ⟨x, hxm, hxp⟩ := List.any_eq_true.mp hl
        exfalso
        apply hnd.1
        have hax : a._id = x._id := by
          have h1 : a._id = item_id := by simpa using h
          have h2 : x._id = item_id := by simpa using hxp
          rw [h1, h2]
        rw [hax]
        exact List.mem_map_of_mem _ hxm
    · rw [List.eraseP_cons_of_neg (p := fun it : Item => it._id == item_id) h]
      have hl : l.any (fun it => it._id == item_id) = true := by
        rcases List.any_eq_true.mp hx with ⟨x, hxm, hxp⟩
        rcases List.mem_cons.mp hxm with rfl | hxm
        · exact absurd hxp h
        · exact List.any_eq_true.mpr ⟨x, hxm, hxp⟩
      have hpa : (a._id == item_id) = false := by
        simpa using h
      rw [List.any_cons, hpa, Bool.false_or]
      exact eraseP_no_more item_id l hnd.2 hl

/-- Claim C6: deleting a well-formed id that matches no record returns
404 (`NotFound`) and leaves the store unchanged; after a successful
delete of an id, deleting it again returns 404 rather than crashing
(idempotent in effect), assuming the store's ids are unique as MongoDB
guarantees for `_id`. -/
theorem delete_idempotent (item_id : String) (store : List Item)
    (hval : isValidObjectId item_id = true)
    (hnodup : (store.map (fun it => it._id)).Nodup) :
    (store.any (fun it => it._id == item_id) = false →
      delete_electronics item_id store =
        (store, Response.failure 404 "Component not found")) ∧
    (∀ store', delete_electronics item_id store =
        (store', Response.success 200 none) →
      delete_electronics item_id store' =
        (store', Response.failure 404 "Component not found")) := by
  constructor
  · intro hno
    unfold delete_electronics
    rw [hval]
    rw [if_neg (by simp)]
    rw [hno]
    rw [if_neg (by simp)]
  · intro store' hdel
    unfold delete_electronics at hdel
    rw [hval] at hdel
    rw [if_neg (by simp)] at hdel
    cases hany : store.any (fun it => it._id == item_id) <;>
      rw [hany] at hdel
    · rw [if_neg (by simp)] at hdel
      simp at hdel
    · rw [if_pos rfl] at hdel
      injection hdel with h1 h2
      unfold delete_electronics
      rw [hval]
      rw [if_neg (by simp)]
      rw [← h1]
      rw [eraseP_no_more item_id store hnodup hany]
      rw [if_neg (by simp)]

/-- Witness for C6: deleting the sample record succeeds once and then
returns 404 on the second attempt. -/
theorem delete_idempotent_witness :
    delete_electronics oid24 [sampleItem] =
      ([], Response.success 200 none) ∧
    delete_electronics oid24 [] =
      ([], Response.failure 404 "Component not found") :=
  ⟨by decide,
   (delete_idempotent oid24 [sampleItem] (by decide) (by decide)).2 []
     (by decide)⟩

/-! ### C7: reports over the empty collection -/

/-- Claim C7: every reporting aggregate over the empty collection
returns zeroes and empty groupings, never an error; in particular the
statistics report returns total 0, low-stock 0, total stock 0 and an
empty category mapping. -/
theorem empty_collection_reports :
    get_statistics [] =
      { total_components := 0, low_stock_items := 0, total_stock := 0,
        categories := [] } ∧
    stock_summary [] =
      { total_items := 0, low_stock_items := 0, in_stock_items := 0,
        total_stock_quantity := 0 } ∧
    category_breakdown [] = [] ∧
    supplier_performance [] = [] ∧
    usage_trends [] = some [] ∧
    full_report [] =
      { total_items := 0, low_stock := 0, categories := [], suppliers := [] } ∧
    get_low_stock_items [] = [] := by
  refine ⟨rfl, rfl, rfl, rfl, rfl, rfl, rfl⟩

/-! ### C8: stock summary arithmetic -/

/-- Claim C8: the stock summary's in-stock count equals total minus
low-stock over the same collection and is never negative. -/
theorem stock_summary_in_stock (store : List Item) :
    (stock_summary store).in_stock_items =
      ((stock_summary store).total_items : Int) -
        ((stock_summary store).low_stock_items : Int) ∧
    0 ≤ (stock_summary store).in_stock_items := by
  refine ⟨rfl, ?_⟩
  have h : (store.filter isLowStock).length ≤ store.length :=
    List.length_filter_le _ _
  simp only [stock_summary]
  omega

/-! ### C9: truthiness-based required-field test -/

/-- Counterexample to C9 as stated: a record with stock = 0 can be
created after all, because the truthy string `"0"` passes the presence
test and `int("0")` stores the integer 0. -/
theorem create_zero_stock_counterexample :
    add_electronics zeroPayload "T" oid24 [] =
      ([zeroItem], Response.success 201 (some zeroItem)) ∧
    zeroItem.stock = 0 := by
  constructor
  · rfl
  · rfl

/-- Claim C9 (amended): a create payload in which `stock` is the integer
0, `min_stock` is the integer 0, or `name`, `category` or `supplier` is
the empty string is rejected with the missing-required-fields error
(HTTP 400), because required-field presence is tested by truthiness; a
record with stock = 0 can nevertheless be created by supplying `stock`
as a truthy string such as `"0"`. -/
theorem create_falsy_rejected (data : Payload) (now newId : String)
    (store : List Item)
    (h : getKey data "stock" = some (JVal.vInt 0) ∨
         getKey data "min_stock" = some (JVal.vInt 0) ∨
         getKey data "name" = some (JVal.vStr "") ∨
         getKey data "category" = some (JVal.vStr "") ∨
         getKey data "supplier" = some (JVal.vStr "")) :
    (missingFields data ≠ [] ∧
     add_electronics data now newId store =
       (store, Response.failure 400 ("Missing required fields: " ++
         String.intercalate ", " (missingFields data)))) ∧
    (add_electronics zeroPayload "T" oid24 [] =
       ([zeroItem], Response.success 201 (some zeroItem)) ∧
     zeroItem.stock = 0) := by
  have hfield : ∀ (k : String) (v : JVal), getKey data k = some v →
      truthy v = false → k ∈ required_fields → k ∈ missingFields data := by
    intro k v hk hv hkr
    apply List.mem_filter.mpr
    refine ⟨hkr, ?_⟩
    unfold dget
    rw [hk]
    simp [hv]
  have hne : missingFields data ≠ [] := by
    rcases h with h | h | h | h | h
    · exact List.ne_nil_of_mem (hfield "stock" _ h (by decide) (by decide))
    · exact List.ne_nil_of_mem (hfield "min_stock" _ h (by decide) (by decide))
    · exact List.ne_nil_of_mem (hfield "name" _ h (by decide) (by decide))
    · exact List.ne_nil_of_mem (hfield "category" _ h (by decide) (by decide))
    · exact List.ne_nil_of_mem (hfield "supplier" _ h (by decide) (by decide))
  refine ⟨⟨hne, ?_⟩, rfl, rfl⟩
  unfold add_electronics
  rw [validate_missing data hne]
  rfl

/-- Witness for the amended C9 at a payload whose `stock` is the
integer 0. -/
theorem create_falsy_rejected_witness :
    (missingFields falsyPayload ≠ [] ∧
     add_electronics falsyPayload "T" oid24 [] =
       ([], Response.failure 400 ("Missing required fields: " ++
         String.intercalate ", " (missingFields falsyPayload)))) ∧
    (add_electronics zeroPayload "T" oid24 [] =
       ([zeroItem], Response.success 201 (some zeroItem)) ∧
     zeroItem.stock = 0) :=
  create_falsy_rejected falsyPayload "T" oid24 [] (Or.inl (by decide))

/-! ### C10: clients cannot forge server-controlled fields -/

/-- Claim C10: two create (or update) payloads that differ only in
values supplied under `status`, `date_added`, `last_updated` or `_id`
produce identical results: the handlers copy only whitelisted fields
from the request body. -/
theorem payload_whitelist (d1 d2 : Payload) (item_id now newId : String)
    (store : List Item)
    (hag : ∀ k, k ∉ forgedKeys → getKey d1 k = getKey d2 k) :
    add_electronics d1 now newId store =
      add_electronics d2 now newId store ∧
    update_electronics item_id d1 now store =
      update_electronics item_id d2 now store := by
  have hname := hag "name" (by decide)
  have hcat := hag "category" (by decide)
  have hstock := hag "stock" (by decide)
  have hmin := hag "min_stock" (by decide)
  have hspec := hag "specifications" (by decide)
  have hsupp := hag "supplier" (by decide)
  have hdget : ∀ k, getKey d1 k = getKey d2 k → dget d1 k = dget d2 k := by
    intro k hk
    unfold dget
    rw [hk]
  have hhas : ∀ k, getKey d1 k = getKey d2 k → hasKey d1 k = hasKey d2 k := by
    intro k hk
    unfold hasKey
    rw [hk]
  have hmiss : missingFields d1 = missingFields d2 := by
    unfold missingFields
    apply List.filter_congr
    intro f hf
    have hfk : getKey d1 f = getKey d2 f := by
      simp only [required_fields, List.mem_cons, List.not_mem_nil,
        or_false] at hf
      rcases hf with rfl | rfl | rfl | rfl | rfl
      · exact hname
      · exact hcat
      · exact hstock
      · exact hmin
      · exact hsupp
    rw [hdget f hfk]
  have hsfe : ∀ key a b, hasKey d1 key = hasKey d2 key →
      dget d1 key = dget d2 key →
      stockFieldError d1 key a b = stockFieldError d2 key a b := by
    intro key a b h1 h2
    unfold stockFieldError
    rw [h1, h2]
  have hval : ∀ u, validate_electronics_data d1 u =
      validate_electronics_data d2 u := by
    intro u
    unfold validate_electronics_data
    rw [hmiss, hsfe "stock" _ _ (hhas _ hstock) (hdget _ hstock),
      hsfe "min_stock" _ _ (hhas _ hmin) (hdget _ hmin),
      hhas _ hcat, hdget _ hcat]
  have hconv : ∀ k, getKey d1 k = getKey d2 k →
      convStock d1 k = convStock d2 k := by
    intro k hk
    unfold convStock
    rw [hhas _ hk, hdget _ hk]
  have hsetf : ∀ (x : Item) (o m : Option Int) (s : Option String),
      setFields x d1 o m s now = setFields x d2 o m s now := by
    intro x o m s
    unfold setFields
    rw [hname, hcat, hspec, hsupp]
  have hupap : ∀ (o m : Option Int) (s : Option String),
      update_apply item_id d1 o m s now store =
        update_apply item_id d2 o m s now store := by
    intro o m s
    unfold update_apply
    simp only [hsetf]
  have hdgd : dgetD d1 "specifications" (JVal.vStr "") =
      dgetD d2 "specifications" (JVal.vStr "") := by
    unfold dgetD
    rw [hspec]
  constructor
  · unfold add_electronics
    rw [hval false]
    simp only [hdget _ hstock, hdget _ hmin, hdget _ hname,
      hdget _ hcat, hdget _ hsupp, hdgd]
  · unfold update_electronics
    rw [hval true]
    simp only [hconv _ hstock, hconv _ hmin, hupap]

/-- Witness for C10: two sample payloads differing only in the value
they try to plant under `status` create the same record and perform the
same update. -/
theorem payload_whitelist_witness :
    add_electronics forgingPayload1 "T" oid24 [sampleItem] =
      add_electronics forgingPayload2 "T" oid24 [sampleItem] ∧
    update_electronics oid24 forgingPayload1 "T" [sampleItem] =
      update_electronics oid24 forgingPayload2 "T" [sampleItem] :=
  payload_whitelist forgingPayload1 forgingPayload2 oid24 "T" oid24
    [sampleItem]
    (by
      intro k hk
      simp only [forgedKeys, List.mem_cons, List.not_mem_nil, or_false,
        not_or] at hk
      have hs : (("status" : String) == k) = false :=
        beq_eq_false_iff_ne.mpr (fun hcon => hk.1 hcon.symm)
      unfold getKey forgingPayload1 forgingPayload2
      rw [List.find?_append, List.find?_append]
      have ht1 : List.find? (fun p : String × JVal => p.1 == k)
          [("status", JVal.vStr "In Stock")] = none := by
        rw [List.find?_cons_of_neg (p := fun p : String × JVal => p.1 == k)
          _ (by simp [hs])]
        rfl
      have ht2 : List.find? (fun p : String × JVal => p.1 == k)
          [("status", JVal.vStr "HACKED")] = none := by
        rw [List.find?_cons_of_neg (p := fun p : String × JVal => p.1 == k)
          _ (by simp [hs])]
        rfl
      rw [ht1, ht2])

end Inventory
